import Mathlib

/-!
Verification of the credential-and-session lifecycle module of the
arleysouza/mocks repository (signup, login, logout with token revocation).
The Session Manager operations live in src/controllers/user.controller.ts,
which is not part of the shipped sources; the repository ships the Jest test
suite exercising it.  The operations are therefore modelled from the
specification (sections 4.4, 6 and 7), with the concrete strings, statuses
and the PostgreSQL unique-violation code 23505 fixed by the test suite.
External collaborators (bcrypt, the jwt utilities, the sha256 digest, the
database and the Redis store) are passed in as explicit function or outcome
parameters, and each operation returns, beside its HTTP response, the trace
of calls it made to those collaborators.
-/

namespace Mocks

/-- Outcome of a call to an external store (database query or Redis write):
either a resolved value or a rejection carrying an optional error code and a
message, matching the rejected objects used by the test suite. -/
inductive StoreOutcome (α : Type) where
  | ok (val : α)
  | err (code : Option String) (message : String)
deriving Repr, DecidableEq

/-- A row of the users table: `SELECT * FROM users` returns id, username and
the stored password hash (the column is called password). -/
structure UserRow where
  id : Nat
  username : String
  password : String
deriving Repr, DecidableEq

/-- The JSON body of a controller response.  `msg m` stands for
`\x7bsuccess:true, data:\x7bmessage:m\x7d\x7d`; `loginData m t i u` stands for
`\x7bsuccess:true, data:\x7bmessage:m, token:t, user:\x7bid:i, username:u\x7d\x7d\x7d`;
`failure e` stands for `\x7bsuccess:false, error:e\x7d`. -/
inductive RespBody where
  | msg (message : String)
  | loginData (message : String) (token : String) (userId : Nat) (username : String)
  | failure (error : String)
deriving Repr, DecidableEq

/-- An HTTP response: status code and JSON body. -/
structure Response where
  status : Nat
  body : RespBody
deriving Repr, DecidableEq

/-- All string components appearing in a response body. -/
def bodyStrings : RespBody → List String
  | .msg m => [m]
  | .loginData m t _ u => [m, t, u]
  | .failure e => [e]

/-- Trace and response of one signup request. -/
structure CreateResult where
  hashCalls : List (String × Nat)
  queryCalls : List (String × List String)
  tokenCalls : List (Nat × String)
  response : Response
deriving Repr, DecidableEq

/-- Modelled from the spec: the signup operation of the Session Manager
(createUser in src/controllers/user.controller.ts, absent from the shipped
sources).  Spec section 4.4: hash the plaintext with the fixed work factor 10,
insert the record through the parameterized insert, map a unique-constraint
violation (PostgreSQL code 23505, fixed by the test suite) to status 400 with
the message taken verbatim from the rejection, map any other persistence
failure to status 500 with the fixed generic message, and map success to
status 201 with a confirmation; no token is issued at signup.  The bcrypt
hash function and the insert outcome are the external collaborators. -/
def createUser (username password : String) (hash : String → Nat → String)
    (insertOutcome : StoreOutcome Unit) : CreateResult :=
  let hashed := hash password 10
  { hashCalls := [(password, 10)]
    queryCalls := [("INSERT INTO users (username, password) VALUES ($1, $2)",
                    [username, hashed])]
    tokenCalls := []
    response :=
      match insertOutcome with
      | .ok _ => { status := 201, body := .msg "Usuário criado com sucesso." }
      | .err code message =>
        if code = some "23505" then
          { status := 400, body := .failure message }
        else
          { status := 500, body := .failure "Erro ao criar usuário." } }

/-- Trace and response of one login request. -/
structure LoginResult where
  queryCalls : List (String × List String)
  compareCalls : List (String × String)
  tokenCalls : List (Nat × String)
  response : Response
deriving Repr, DecidableEq

/-- Modelled from the spec: the login operation of the Session Manager
(loginUser in src/controllers/user.controller.ts, absent from the shipped
sources).  Spec section 4.4: select the user row by username; if no row is
found or the bcrypt comparison fails, answer 401 with the single deliberately
ambiguous message; on a match issue a token from the claims subset id and
username and answer 200 with token and user (never the stored hash); any
persistence rejection collapses to the fixed generic 500 message.  The bcrypt
comparison, the token generator and the query outcome are the external
collaborators. -/
def loginUser (username password : String)
    (compare : String → String → Bool)
    (generateToken : Nat → String → String)
    (queryOutcome : StoreOutcome (List UserRow)) : LoginResult :=
  let qc := [("SELECT * FROM users WHERE username = $1", [username])]
  match queryOutcome with
  | .err _ _ =>
    { queryCalls := qc, compareCalls := [], tokenCalls := []
      response := { status := 500, body := .failure "Erro ao realizar login." } }
  | .ok [] =>
    { queryCalls := qc, compareCalls := [], tokenCalls := []
      response := { status := 401, body := .failure "Credenciais inválidas." } }
  | .ok (user :: _) =>
    if compare password user.password then
      { queryCalls := qc, compareCalls := [(password, user.password)]
        tokenCalls := [(user.id, user.username)]
        response :=
          { status := 200
            body := .loginData "Login realizado com sucesso."
              (generateToken user.id user.username) user.id user.username } }
    else
      { queryCalls := qc, compareCalls := [(password, user.password)]
        tokenCalls := []
        response := { status := 401, body := .failure "Credenciais inválidas." } }

/-- The claims payload of a verified session token; the exp field may be
absent, which logout must reject. -/
structure Claims where
  id : Nat
  username : String
  exp : Option Int
deriving Repr, DecidableEq

/-- Modelled from the spec: extraction of the bearer token from the
authorization header (spec section 4.4 step 1 of logout: the token must be
present in the form Bearer token; an absent or malformed header fails).
The token is the part of the header after the 7-character marker; the
extraction is phrased on the character list of the header so that it
evaluates on concrete inputs. -/
def extractBearer (header : Option String) : Option String :=
  match header with
  | none => none
  | some h =>
    if h.data.take 7 = "Bearer ".data ∧ h.data.drop 7 ≠ [] then
      some (String.mk (h.data.drop 7))
    else none

/-- Trace and response of one logout request. -/
structure LogoutResult where
  verifyCalls : List (String × Bool)
  setexCalls : List (String × Int × String)
  response : Response
deriving Repr, DecidableEq

/-- Modelled from the spec: the logout operation of the Session Manager
(logoutUser in src/controllers/user.controller.ts, absent from the shipped
sources).  Spec section 4.4: extract the bearer token (absent or malformed
header answers 401); verify it with ignoreExpiration set to true (a failed
verification answers 400); claims lacking exp answer 400; otherwise compute
remaining = exp - now and write the revocation entry with key
blacklist:jwt: followed by the hex sha256 of the raw token, value true and
TTL remaining when positive, else the 60 second fallback; a store failure
answers the fixed generic 500 message, success answers 200.  The verifier,
the sha256 digest, the clock and the Redis outcome are the external
collaborators. -/
def logoutUser (header : Option String)
    (verify : String → Bool → Option Claims)
    (sha256hex : String → String)
    (now : Int)
    (setexOutcome : StoreOutcome String) : LogoutResult :=
  match extractBearer header with
  | none =>
    { verifyCalls := [], setexCalls := []
      response := { status := 401, body := .failure "Token não fornecido" } }
  | some token =>
    match verify token true with
    | none =>
      { verifyCalls := [(token, true)], setexCalls := []
        response := { status := 400, body := .failure "Token inválido" } }
    | some claims =>
      match claims.exp with
      | none =>
        { verifyCalls := [(token, true)], setexCalls := []
          response := { status := 400, body := .failure "Token inválido" } }
      | some exp =>
        let remaining := exp - now
        let ttl := if remaining > 0 then remaining else 60
        let key := "blacklist:jwt:" ++ sha256hex token
        { verifyCalls := [(token, true)]
          setexCalls := [(key, ttl, "true")]
          response :=
            match setexOutcome with
            | .ok _ =>
              { status := 200
                body := .msg "Logout realizado com sucesso. Token invalidado." }
            | .err _ _ =>
              { status := 500, body := .failure "Erro ao realizar logout." } }

/-- Extraction strips exactly the Bearer marker: for a header formed of the
marker followed by a nonempty token, the extracted token is that suffix, not
the whole header. -/
theorem extractBearer_bearer (l : List Char) (hl : l ≠ []) :
    extractBearer (some (String.mk ("Bearer ".data ++ l))) = some (String.mk l) := by
  have htake : ("Bearer ".data ++ l).take 7 = "Bearer ".data := by
    rw [show (7 : Nat) = "Bearer ".data.length from by decide]
    exact List.take_left _ _
  have hdrop : ("Bearer ".data ++ l).drop 7 = l := by
    rw [show (7 : Nat) = "Bearer ".data.length from by decide]
    exact List.drop_left _ _
  simp [extractBearer, htake, hdrop, hl]

/-- C1: for every logout request whose bearer token verifies with expiration
ignored and whose claims carry exp, the revocation write uses ttlSeconds
computed piecewise from remaining = exp - now: exactly remaining when it is
positive, exactly 60 otherwise; and an already expired token is still
accepted, answering 200 when the store write succeeds. -/
theorem c1_logout_ttl (header : Option String)
    (verify : String → Bool → Option Claims) (sha256hex : String → String)
    (now : Int) (outcome : StoreOutcome String)
    (token : String) (c : Claims) (exp : Int)
    (htok : extractBearer header = some token)
    (hver : verify token true = some c)
    (hexp : c.exp = some exp) :
    (exp - now > 0 →
      (logoutUser header verify sha256hex now outcome).setexCalls =
        [("blacklist:jwt:" ++ sha256hex token, exp - now, "true")]) ∧
    (exp - now ≤ 0 →
      (logoutUser header verify sha256hex now outcome).setexCalls =
        [("blacklist:jwt:" ++ sha256hex token, (60 : Int), "true")]) ∧
    (∀ v, outcome = .ok v →
      (logoutUser header verify sha256hex now outcome).response.status = 200) := by
  refine ⟨?_, ?_, ?_⟩
  · intro h
    simp only [logoutUser, htok, hver, hexp]
    rw [if_pos (by omega : exp - now > 0)]
  · intro h
    simp only [logoutUser, htok, hver, hexp]
    rw [if_neg (by omega : ¬ exp - now > 0)]
  · intro v h
    subst h
    simp [logoutUser, htok, hver, hexp]

/-- Witness for C1 at a concrete expired token: exp 100, clock 160, so the
fallback TTL 60 is written. -/
theorem c1_logout_ttl_witness :
    (logoutUser (some "Bearer tok")
      (fun _ _ => some { id := 1, username := "u", exp := some 100 })
      (fun _ => "D") 160 (.ok "OK")).setexCalls =
      [("blacklist:jwt:" ++ "D", (60 : Int), "true")] :=
  (c1_logout_ttl (some "Bearer tok")
    (fun _ _ => some { id := 1, username := "u", exp := some 100 })
    (fun _ => "D") 160 (.ok "OK") "tok"
    { id := 1, username := "u", exp := some 100 } 100
    (by decide) rfl rfl).2.1 (by decide)

/-- C2: a login for a nonexistent username and a login for an existing user
with a mismatching password produce identical responses, both status 401 with
the fixed ambiguous error body. -/
theorem c2_login_indistinguishable (username password : String)
    (cmp1 cmp2 : String → String → Bool) (gen1 gen2 : Nat → String → String)
    (user : UserRow) (rest : List UserRow)
    (hmismatch : cmp2 password user.password = false) :
    (loginUser username password cmp1 gen1 (.ok [])).response =
      (loginUser username password cmp2 gen2 (.ok (user :: rest))).response ∧
    (loginUser username password cmp1 gen1 (.ok [])).response =
      { status := 401, body := .failure "Credenciais inválidas." } := by
  constructor <;> simp [loginUser, hmismatch]

/-- Witness for C2 at the concrete test fixtures. -/
theorem c2_login_indistinguishable_witness :
    (loginUser "testuser" "123456" (fun _ _ => false) (fun _ _ => "fakeJwtToken")
        (.ok [])).response =
      (loginUser "testuser" "123456" (fun _ _ => false) (fun _ _ => "fakeJwtToken")
        (.ok [{ id := 1, username := "testuser", password := "hashedPassword" }])).response ∧
    (loginUser "testuser" "123456" (fun _ _ => false) (fun _ _ => "fakeJwtToken")
        (.ok [])).response =
      { status := 401, body := .failure "Credenciais inválidas." } :=
  c2_login_indistinguishable "testuser" "123456" (fun _ _ => false)
    (fun _ _ => false) (fun _ _ => "fakeJwtToken") (fun _ _ => "fakeJwtToken")
    { id := 1, username := "testuser", password := "hashedPassword" } [] rfl

/-- C3: a successful signup hashes the plaintext with the fixed work factor
10, inserts through the parameterized insert exactly the username and the
hash (so, the hash differing from the plaintext, the persisted value differs
from the given password), answers 201 with the confirmation, and issues no
token. -/
theorem c3_signup_success (username password : String)
    (hash : String → Nat → String)
    (hne : hash password 10 ≠ password) :
    (createUser username password hash (.ok ())).hashCalls = [(password, 10)] ∧
    (createUser username password hash (.ok ())).queryCalls =
      [("INSERT INTO users (username, password) VALUES ($1, $2)",
        [username, hash password 10])] ∧
    (hash password 10 == password) = false ∧
    (createUser username password hash (.ok ())).tokenCalls = [] ∧
    (createUser username password hash (.ok ())).response =
      { status := 201, body := .msg "Usuário criado com sucesso." } := by
  refine ⟨?_, ?_, ?_, ?_, ?_⟩ <;> simp [createUser, hne]

/-- Witness for C3 at the concrete test fixture, with a hash function whose
output on the fixture password differs from it. -/
theorem c3_signup_success_witness :
    (createUser "testuser" "123456" (fun p _ => "h:" ++ p) (.ok ())).hashCalls =
      [("123456", 10)] ∧
    (createUser "testuser" "123456" (fun p _ => "h:" ++ p) (.ok ())).queryCalls =
      [("INSERT INTO users (username, password) VALUES ($1, $2)",
        ["testuser", "h:" ++ "123456"])] ∧
    (("h:" ++ "123456") == "123456") = false ∧
    (createUser "testuser" "123456" (fun p _ => "h:" ++ p) (.ok ())).tokenCalls = [] ∧
    (createUser "testuser" "123456" (fun p _ => "h:" ++ p) (.ok ())).response =
      { status := 201, body := .msg "Usuário criado com sucesso." } :=
  c3_signup_success "testuser" "123456" (fun p _ => "h:" ++ p) (by decide)

/-- C4: a successful login answers 200 with the issued token and the user id
and username from the found record, the token is issued from the claims
subset id and username exactly, and the stored password hash is not among the
strings of the response body. -/
theorem c4_login_response (username password : String)
    (cmp : String → String → Bool) (gen : Nat → String → String)
    (user : UserRow) (rest : List UserRow)
    (hmatch : cmp password user.password = true)
    (h1 : user.password ≠ "Login realizado com sucesso.")
    (h2 : user.password ≠ gen user.id user.username)
    (h3 : user.password ≠ user.username) :
    (loginUser username password cmp gen (.ok (user :: rest))).response =
      { status := 200
        body := .loginData "Login realizado com sucesso."
          (gen user.id user.username) user.id user.username } ∧
    (loginUser username password cmp gen (.ok (user :: rest))).tokenCalls =
      [(user.id, user.username)] ∧
    (bodyStrings (loginUser username password cmp gen
        (.ok (user :: rest))).response.body).contains user.password = false := by
  refine ⟨?_, ?_, ?_⟩ <;>
    simp [loginUser, hmatch, bodyStrings, h1, h2, h3, List.contains]

/-- Witness for C4 at the concrete test fixtures. -/
theorem c4_login_response_witness :
    (loginUser "testuser" "123456" (fun _ _ => true) (fun _ _ => "fakeJwtToken")
        (.ok [{ id := 1, username := "testuser", password := "hashedPassword" }])).response =
      { status := 200
        body := .loginData "Login realizado com sucesso." "fakeJwtToken" 1 "testuser" } ∧
    (loginUser "testuser" "123456" (fun _ _ => true) (fun _ _ => "fakeJwtToken")
        (.ok [{ id := 1, username := "testuser", password := "hashedPassword" }])).tokenCalls =
      [(1, "testuser")] ∧
    (bodyStrings (loginUser "testuser" "123456" (fun _ _ => true)
        (fun _ _ => "fakeJwtToken")
        (.ok [{ id := 1, username := "testuser", password := "hashedPassword" }])).response.body).contains
      "hashedPassword" = false :=
  c4_login_response "testuser" "123456" (fun _ _ => true) (fun _ _ => "fakeJwtToken")
    { id := 1, username := "testuser", password := "hashedPassword" } []
    rfl (by decide) (by decide) (by decide)

/-- C5: every revocation write of a logout whose header is the Bearer marker
followed by a token uses the key blacklist:jwt: concatenated with the digest
of the raw token string, the part after the marker and not the whole header,
and stores the value true. -/
theorem c5_revocation_write (l : List Char)
    (verify : String → Bool → Option Claims) (sha256hex : String → String)
    (now : Int) (outcome : StoreOutcome String) (c : Claims) (exp : Int)
    (hl : l ≠ [])
    (hver : verify (String.mk l) true = some c)
    (hexp : c.exp = some exp) :
    ((logoutUser (some (String.mk ("Bearer ".data ++ l))) verify sha256hex now
        outcome).setexCalls).map (fun call => (call.1, call.2.2)) =
      [("blacklist:jwt:" ++ sha256hex (String.mk l), "true")] := by
  unfold logoutUser
  rw [extractBearer_bearer l hl]
  simp [hver, hexp]

/-- Witness for C5 at the concrete token tok. -/
theorem c5_revocation_write_witness :
    ((logoutUser (some (String.mk ("Bearer ".data ++ "tok".data)))
        (fun _ _ => some { id := 1, username := "u", exp := some 100 })
        (fun t => "sha:" ++ t) 40 (.ok "OK")).setexCalls).map
        (fun call => (call.1, call.2.2)) =
      [("blacklist:jwt:" ++ ("sha:" ++ String.mk "tok".data), "true")] :=
  c5_revocation_write "tok".data
    (fun _ _ => some { id := 1, username := "u", exp := some 100 })
    (fun t => "sha:" ++ t) 40 (.ok "OK")
    { id := 1, username := "u", exp := some 100 } 100
    (by decide) rfl rfl

/-- C6: a logout whose authorization header is absent or not of the Bearer
form answers 401 with the missing-token error, performing no verification and
no revocation write. -/
theorem c6_missing_token (header : Option String)
    (verify : String → Bool → Option Claims) (sha256hex : String → String)
    (now : Int) (outcome : StoreOutcome String)
    (h : extractBearer header = none) :
    logoutUser header verify sha256hex now outcome =
      { verifyCalls := [], setexCalls := []
        response := { status := 401, body := .failure "Token não fornecido" } } := by
  simp [logoutUser, h]

/-- Witness for C6 with no authorization header. -/
theorem c6_missing_token_witness :
    logoutUser none (fun _ _ => some { id := 1, username := "u", exp := some 100 })
        (fun _ => "D") 40 (.ok "OK") =
      { verifyCalls := [], setexCalls := []
        response := { status := 401, body := .failure "Token não fornecido" } } :=
  c6_missing_token none (fun _ _ => some { id := 1, username := "u", exp := some 100 })
    (fun _ => "D") 40 (.ok "OK") rfl

/-- C7: a logout whose token verifies but whose claims lack exp answers 400
with the invalid-token error and performs no revocation write, even though
verification itself succeeded. -/
theorem c7_missing_exp (header : Option String)
    (verify : String → Bool → Option Claims) (sha256hex : String → String)
    (now : Int) (outcome : StoreOutcome String) (token : String) (c : Claims)
    (htok : extractBearer header = some token)
    (hver : verify token true = some c)
    (hexp : c.exp = none) :
    logoutUser header verify sha256hex now outcome =
      { verifyCalls := [(token, true)], setexCalls := []
        response := { status := 400, body := .failure "Token inválido" } } := by
  simp [logoutUser, htok, hver, hexp]

/-- Witness for C7 with the concrete claims of the test lacking exp. -/
theorem c7_missing_exp_witness :
    logoutUser (some "Bearer tokenInvalido")
        (fun _ _ => some { id := 1, username := "testuser", exp := none })
        (fun _ => "D") 40 (.ok "OK") =
      { verifyCalls := [("tokenInvalido", true)], setexCalls := []
        response := { status := 400, body := .failure "Token inválido" } } :=
  c7_missing_exp (some "Bearer tokenInvalido")
    (fun _ _ => some { id := 1, username := "testuser", exp := none })
    (fun _ => "D") 40 (.ok "OK") "tokenInvalido"
    { id := 1, username := "testuser", exp := none } (by decide) rfl rfl

/-- C8: a signup whose insert is rejected with the unique-violation code
answers 400 with an error equal, character for character, to the message of
the rejection, not a fixed string. -/
theorem c8_duplicate_message (username password message : String)
    (hash : String → Nat → String) :
    (createUser username password hash (.err (some "23505") message)).response =
      { status := 400, body := .failure message } := by
  simp [createUser]

/-- C9: every non-domain failure answers 500 with the single fixed generic
message of its operation, whatever the message of the underlying rejection:
a signup rejection without the unique-violation code, any login rejection,
and a revocation-store rejection during logout. -/
theorem c9_generic_errors (username password : String)
    (hash : String → Nat → String) (cmp : String → String → Bool)
    (gen : Nat → String → String)
    (code : Option String) (message : String)
    (lcode : Option String) (lmessage : String)
    (header : Option String) (verify : String → Bool → Option Claims)
    (sha256hex : String → String) (now : Int)
    (rcode : Option String) (rmessage : String)
    (token : String) (c : Claims) (exp : Int)
    (hcode : code ≠ some "23505")
    (htok : extractBearer header = some token)
    (hver : verify token true = some c)
    (hexp : c.exp = some exp) :
    (createUser username password hash (.err code message)).response =
      { status := 500, body := .failure "Erro ao criar usuário." } ∧
    (loginUser username password cmp gen (.err lcode lmessage)).response =
      { status := 500, body := .failure "Erro ao realizar login." } ∧
    (logoutUser header verify sha256hex now (.err rcode rmessage)).response =
      { status := 500, body := .failure "Erro ao realizar logout." } := by
  refine ⟨?_, ?_, ?_⟩
  · simp [createUser, hcode]
  · simp [loginUser]
  · simp [logoutUser, htok, hver, hexp]

/-- Witness for C9 at concrete rejections carrying their own messages. -/
theorem c9_generic_errors_witness :
    (createUser "testuser" "123456" (fun p _ => "h:" ++ p)
        (.err none "Erro de banco")).response =
      { status := 500, body := .failure "Erro ao criar usuário." } ∧
    (loginUser "testuser" "123456" (fun _ _ => true) (fun _ _ => "fakeJwtToken")
        (.err none "Erro de banco")).response =
      { status := 500, body := .failure "Erro ao realizar login." } ∧
    (logoutUser (some "Bearer tokenValido")
        (fun _ _ => some { id := 1, username := "testuser", exp := some 100 })
        (fun _ => "D") 40 (.err none "Erro no Redis")).response =
      { status := 500, body := .failure "Erro ao realizar logout." } :=
  c9_generic_errors "testuser" "123456" (fun p _ => "h:" ++ p) (fun _ _ => true)
    (fun _ _ => "fakeJwtToken") none "Erro de banco" none "Erro de banco"
    (some "Bearer tokenValido")
    (fun _ _ => some { id := 1, username := "testuser", exp := some 100 })
    (fun _ => "D") 40 none "Erro no Redis" "tokenValido"
    { id := 1, username := "testuser", exp := some 100 } 100
    (by decide) (by decide) rfl rfl

/-- C10: a signup rejection is classified as a duplicate-username conflict
exactly when its code is 23505: then the response is 400 with the rejection
message itself, otherwise the fixed generic 500 response, whatever the
message. -/
theorem c10_conflict_classification (username password message : String)
    (hash : String → Nat → String) (code : Option String) :
    (createUser username password hash (.err code message)).response =
      (if code = some "23505" then
        { status := 400, body := RespBody.failure message }
       else
        { status := 500, body := RespBody.failure "Erro ao criar usuário." }) := by
  by_cases h : code = some "23505" <;> simp [createUser, h]

end Mocks
